import Mathlib

/-!
Verification of the preset-management module `ui/presets.py` of the sverchok
node-graph editor plugin.

The module is shallowly embedded: the filesystem is an explicit state value
threaded through every operation, Python-level exceptions are a dedicated
result constructor carrying the filesystem state at raise time, and
externally observable actions (logging, operator reports, network calls,
clipboard writes) are recorded in an event trace.  External collaborators
(the graph serializer, the gist upload/download client, the host runtime)
are passed in as function parameters or modelled as abstract values; the
control flow of every `execute` method is translated statement by statement
from the Python source.
-/

/-! ### Lexicographic string order, executable

Python `sorted()` on strings compares lexicographically by code point.
`lexLe` is a structurally recursive Boolean comparison on the underlying
character lists, proved equivalent to the linear order on `String`.
-/

/-- Boolean lexicographic less-or-equal on character lists. -/
def lexLe : List Char → List Char → Bool
  | [], _ => true
  | _ :: _, [] => false
  | a :: as, b :: bs => if a < b then true else if a = b then lexLe as bs else false

/-- Boolean lexicographic less-or-equal on strings, as Python compares them. -/
def strLeb (a b : String) : Bool := lexLe a.data b.data

theorem lexLe_iff_not_lex (as bs : List Char) :
    lexLe as bs = true ↔ ¬ List.Lex (· < ·) bs as := by
  induction as generalizing bs with
  | nil =>
    refine iff_of_true rfl ?_
    intro h
    cases h
  | cons a as ih =>
    cases bs with
    | nil =>
      exact iff_of_false (by simp [lexLe]) (not_not_intro List.Lex.nil)
    | cons b bs =>
      show (if a < b then true else if a = b then lexLe as bs else false) = true ↔ _
      by_cases hab : a < b
      · rw [if_pos hab]
        refine iff_of_true rfl ?_
        intro h
        cases h with
        | cons h' => exact absurd hab (lt_irrefl a)
        | rel h' => exact absurd hab (lt_asymm h')
      · by_cases heq : a = b
        · subst heq
          rw [if_neg hab, if_pos rfl, ih bs]
          constructor
          · intro h hl
            cases hl with
            | cons h' => exact h h'
            | rel h' => exact absurd h' (lt_irrefl a)
          · intro h hl
            exact h (List.Lex.cons hl)
        · rw [if_neg hab, if_neg heq]
          have hba : b < a := by
            rcases lt_trichotomy a b with h1 | h1 | h1
            · exact absurd h1 hab
            · exact absurd h1 heq
            · exact h1
          exact iff_of_false (by simp) (not_not_intro (List.Lex.rel hba))

theorem strLeb_iff (a b : String) : strLeb a b = true ↔ a ≤ b := by
  rw [String.le_iff_toList_le, ← not_lt]
  show lexLe a.data b.data = true ↔ ¬ List.Lex (· < ·) b.data a.data
  exact lexLe_iff_not_lex a.data b.data

/-- Insert a string into a (sorted) list, keeping lexicographic order. -/
def insertSorted (x : String) : List String → List String
  | [] => [x]
  | y :: ys => if strLeb x y then x :: y :: ys else y :: insertSorted x ys

/-- Model of Python sorted() on a list of strings: stable insertion sort
under the lexicographic order. -/
def sortStrings : List String → List String
  | [] => []
  | x :: xs => insertSorted x (sortStrings xs)

theorem insertSorted_eq (x : String) (l : List String) :
    insertSorted x l = List.orderedInsert (· ≤ ·) x l := by
  induction l with
  | nil => rfl
  | cons y ys ih =>
    simp only [insertSorted, List.orderedInsert]
    by_cases h : x ≤ y
    · rw [if_pos ((strLeb_iff x y).mpr h), if_pos h]
    · rw [if_neg (fun hc => h ((strLeb_iff x y).mp hc)), if_neg h, ih]

theorem sortStrings_eq (l : List String) :
    sortStrings l = List.insertionSort (· ≤ ·) l := by
  induction l with
  | nil => rfl
  | cons x xs ih => simp only [sortStrings, List.insertionSort, ih, insertSorted_eq]

theorem sortStrings_sorted (l : List String) : List.Sorted (· ≤ ·) (sortStrings l) := by
  rw [sortStrings_eq]
  exact List.sorted_insertionSort _ l

theorem sortStrings_perm (l : List String) : List.Perm (sortStrings l) l := by
  rw [sortStrings_eq]
  exact List.perm_insertionSort _ l

theorem mem_sortStrings (l : List String) (p : String) : p ∈ sortStrings l ↔ p ∈ l :=
  (sortStrings_perm l).mem_iff

/-! ### Python path helpers

Models of the exact posixpath primitives the module uses: os.path.join,
os.path.basename, os.path.splitext.
-/

/-- First character of a string, if any. -/
def strHead (s : String) : Option Char := s.data.head?

/-- Last character of a string, if any. -/
def strLast (s : String) : Option Char := s.data.getLast?

/-- Model of os.path.join(a, b) for posix paths: an absolute second
component discards the first; otherwise a separator is inserted unless the
first component is empty or already ends with one. -/
def posixJoin (a b : String) : String :=
  if strHead b = some '/' then b
  else if a = "" ∨ strLast a = some '/' then a ++ b
  else a ++ "/" ++ b

/-- Characters after the last slash of a path (model of os.path.basename). -/
def basename (p : String) : String :=
  String.mk (p.data.foldl (fun acc c => if c = '/' then [] else acc ++ [c]) [])

/-- Index of the last dot of a character list, if any. -/
def lastDotPos : List Char → Option Nat
  | [] => none
  | c :: cs =>
    match lastDotPos cs with
    | some i => some (i + 1)
    | none => if c = '.' then some 0 else none

/-- Root part of os.path.splitext applied to a basename: the extension is
split off at the last dot, except when every character before that dot is
itself a dot (Python treats such names as having no extension). -/
def splitext_root (b : String) : String :=
  match lastDotPos b.data with
  | none => b
  | some d =>
    if (b.data.take d).any (fun c => c != '.') then String.mk (b.data.take d) else b

/-- Stem of a path as the module computes it in SvPreset.get_name and
SvPreset.set_path: os.path.basename followed by os.path.splitext. -/
def pyStem (p : String) : String := splitext_root (basename p)

/-- Boolean test that the first character list leads the second. -/
def charsLeadOf : List Char → List Char → Bool
  | [], _ => true
  | _ :: _, [] => false
  | a :: as, b :: bs => a == b && charsLeadOf as bs

/-- Boolean test that pre is an initial segment of s. -/
def strStarts (pre s : String) : Bool := charsLeadOf pre.data s.data

/-- Boolean test for a leading dot (hidden entry under glob). -/
def headIsDot : List Char → Bool
  | c :: _ => c == '.'
  | [] => false

theorem charsLeadOf_append (l m : List Char) : charsLeadOf l (l ++ m) = true := by
  induction l with
  | nil => rfl
  | cons a as ih => simp [charsLeadOf, ih]

theorem strStarts_append (a b : String) : strStarts a (a ++ b) = true := by
  unfold strStarts
  rw [String.data_append]
  exact charsLeadOf_append a.data b.data

/-! ### Filesystem state

A filesystem is a flat association of file paths to contents (the module
treats preset contents as opaque text) plus the set of existing
directories.  The directory component records only whether the presets
directory itself has been created; the presets directory is modelled as
containing regular files only.
-/

/-- Association-list lookup of a file path. -/
def filesLookup : List (String × String) → String → Option String
  | [], _ => none
  | e :: rest, p => if e.1 = p then some e.2 else filesLookup rest p

/-- Filesystem state: files (path, content) and existing directories. -/
structure FS where
  files : List (String × String)
  dirs : List String
deriving DecidableEq

/-- Content of the file at a path, if one exists. -/
def FS.readFile (fs : FS) (p : String) : Option String := filesLookup fs.files p

/-- Model of os.path.isfile. -/
def FS.fileExists (fs : FS) (p : String) : Bool := (filesLookup fs.files p).isSome

/-- Model of os.path.exists: a file or a directory is present. -/
def FS.pathExists (fs : FS) (p : String) : Bool :=
  fs.fileExists p || fs.dirs.contains p

/-- Create or truncate-and-write the file at a path. -/
def FS.writeFile (fs : FS) (p c : String) : FS :=
  ⟨(p, c) :: fs.files.filter (fun e => e.1 != p), fs.dirs⟩

/-- Model of os.remove. -/
def FS.removeFile (fs : FS) (p : String) : FS :=
  ⟨fs.files.filter (fun e => e.1 != p), fs.dirs⟩

/-- Model of os.makedirs. -/
def FS.makeDir (fs : FS) (p : String) : FS := ⟨fs.files, p :: fs.dirs⟩

theorem filesLookup_filter_self (l : List (String × String)) (p : String) :
    filesLookup (l.filter (fun e => e.1 != p)) p = none := by
  induction l with
  | nil => rfl
  | cons e rest ih =>
    by_cases h : e.1 = p
    · simp [List.filter_cons, h, ih]
    · simp [List.filter_cons, h, filesLookup, ih]

theorem filesLookup_filter_ne (l : List (String × String)) (p q : String) (h : q ≠ p) :
    filesLookup (l.filter (fun e => e.1 != p)) q = filesLookup l q := by
  induction l with
  | nil => rfl
  | cons e rest ih =>
    by_cases h1 : e.1 = p
    · have h2 : ¬ (p = q) := Ne.symm h
      simp [List.filter_cons, h1, filesLookup, ih, h2]
    · simp [List.filter_cons, h1, filesLookup, ih]

theorem FS.readFile_writeFile_self (fs : FS) (p c : String) :
    (fs.writeFile p c).readFile p = some c := by
  simp [FS.writeFile, FS.readFile, filesLookup]

theorem FS.readFile_writeFile_ne (fs : FS) (p c q : String) (h : q ≠ p) :
    (fs.writeFile p c).readFile q = fs.readFile q := by
  simp only [FS.writeFile, FS.readFile, filesLookup, if_neg (Ne.symm h)]
  exact filesLookup_filter_ne fs.files p q h

theorem FS.readFile_removeFile_self (fs : FS) (p : String) :
    (fs.removeFile p).readFile p = none := by
  simp only [FS.removeFile, FS.readFile]
  exact filesLookup_filter_self fs.files p

theorem FS.readFile_removeFile_ne (fs : FS) (p q : String) (h : q ≠ p) :
    (fs.removeFile p).readFile q = fs.readFile q := by
  simp only [FS.removeFile, FS.readFile]
  exact filesLookup_filter_ne fs.files p q h

theorem FS.pathExists_of_fileExists (fs : FS) (p : String)
    (h : fs.fileExists p = true) : fs.pathExists p = true := by
  simp [FS.pathExists, h]

/-! ### Preset directory resolver

Translation of get_presets_directory, get_preset_path and get_preset_paths
(ui/presets.py lines 32-44).  bpy.utils.user_resource('DATAFILES',
path='sverchok/presets', create=True) is a host-runtime call returning a
fixed per-user data directory path; it is modelled as a constant.  The
module itself then checks os.path.exists and calls os.makedirs, which is
the filesystem effect modelled here.
-/

/-- Fixed host-defined location of the presets directory, the value of
bpy.utils.user_resource('DATAFILES', path='sverchok/presets', create=True). -/
def presets_directory_location : String := "/datafiles/sverchok/presets"

/-- Translation of get_presets_directory(): resolve the presets directory,
creating it when absent (the single-argument os.path.join in the source is
the identity). -/
def get_presets_directory (fs : FS) : String × FS :=
  if fs.pathExists presets_directory_location then (presets_directory_location, fs)
  else (presets_directory_location, fs.makeDir presets_directory_location)

/-- Translation of get_preset_path(name): join the presets directory with
name + ".json". -/
def get_preset_path (name : String) (fs : FS) : String × FS :=
  let r := get_presets_directory fs
  (posixJoin r.1 (name ++ ".json"), r.2)

/-- Glob pattern test for join(presets, "*.json"): the path is directly
inside the given directory, its basename does not begin with a dot (the
glob module hides dotfiles from a * wildcard) and ends with ".json". -/
def matchGlob (dir p : String) : Bool :=
  strStarts (dir ++ "/") p &&
    (let base := p.data.drop (dir.data.length + 1)
     !(base.contains '/') && !(headIsDot base) &&
       charsLeadOf (String.data ".json").reverse base.reverse)

/-- Translation of get_preset_paths(): the sorted glob of *.json entries of
the presets directory. -/
def get_preset_paths (fs : FS) : List String × FS :=
  let r := get_presets_directory fs
  (sortStrings ((r.2.files.map Prod.fst).filter (fun p => matchGlob r.1 p)), r.2)

/-- Names bound at module level by the import statements of ui/presets.py
(lines 19-30).  Notably absent: json, which line 401 nevertheless uses. -/
def moduleGlobals : List String :=
  ["os", "join", "shutil", "glob", "bpy", "StringProperty", "BoolProperty",
   "write_json", "create_dict_of_tree", "import_tree",
   "debug", "info", "error", "exception", "sv_gist_tools", "sv_IO_panel_tools"]

/-! ### Operator outcome, Python exceptions, event trace -/

/-- Operator return status, as returned from an execute method. -/
inductive Outcome where
  | FINISHED
  | CANCELLED
deriving DecidableEq

/-- Python exceptions that the module can let escape. -/
inductive PyErr where
  | nameError (n : String)
  | keyError (k : String)
  | fileNotFoundError (p : String)
deriving DecidableEq

/-- Externally observable actions of an operator, in program order. -/
inductive Event where
  | logError (msg : String)
  | logInfo (msg : String)
  | logException
  | report (kind msg : String)
  | fetchGist (gid : String)
  | uploadGist (filename desc body : String)
  | clipboardSet (s : String)
  | appendDatafiles (url filename : String)
deriving DecidableEq

/-- Result of running an execute method: either a returned status or an
uncaught Python exception, in both cases with the final filesystem state
and the trace of observable actions. -/
inductive PyResult where
  | ok (status : Outcome) (fs : FS) (events : List Event)
  | raised (e : PyErr) (fs : FS) (events : List Event)
deriving DecidableEq

/-- Returned status, none when an exception escaped. -/
def PyResult.statusOf : PyResult → Option Outcome
  | .ok s _ _ => some s
  | .raised _ _ _ => none

/-- Final filesystem state. -/
def PyResult.fsOf : PyResult → FS
  | .ok _ fs _ => fs
  | .raised _ fs _ => fs

/-- Trace of observable actions. -/
def PyResult.eventsOf : PyResult → List Event
  | .ok _ _ ev => ev
  | .raised _ _ ev => ev

/-! ### Preset entity

Translation of class SvPreset (ui/presets.py lines 46-82): two lazily
resolved fields, each computable from the other.  Accessors return the
observed value together with the updated object (caching) and, for
get_path and set_name, the threaded filesystem state, since
get_preset_path may create the presets directory.  An accessor returns
none when both fields are absent (the Python code would pass None to
os.path.basename and raise); __init__ refuses that state up front.
-/

/-- Preset entity state: the two optional cached fields. -/
structure SvPreset where
  _name : Option String
  _path : Option String
deriving DecidableEq

/-- Translation of SvPreset.__init__(name, path): at least one of the two
must be given. -/
def SvPreset.init (name path : Option String) : Except String SvPreset :=
  if name = none ∧ path = none then
    .error "Either name or path must be specified when initializing SvPreset"
  else .ok ⟨name, path⟩

/-- Construction from a path only, as get_presets() does. -/
def SvPreset.ofPath (p : String) : SvPreset := ⟨none, some p⟩

/-- Translation of SvPreset.get_name: return the cached name, or derive it
from the path as basename without extension and cache it. -/
def SvPreset.get_name (s : SvPreset) : Option (String × SvPreset) :=
  match s._name with
  | some n => some (n, s)
  | none =>
    match s._path with
    | some p => some (pyStem p, ⟨some (pyStem p), s._path⟩)
    | none => none

/-- Translation of SvPreset.set_name: store the new name and recompute the
path from the resolver. -/
def SvPreset.set_name (s : SvPreset) (new_name : String) (fs : FS) : SvPreset × FS :=
  let r := get_preset_path new_name fs
  (⟨some new_name, some r.1⟩, r.2)

/-- Translation of SvPreset.get_path: return the cached path, or derive it
from the name via the resolver and cache it. -/
def SvPreset.get_path (s : SvPreset) (fs : FS) : Option (String × SvPreset × FS) :=
  match s._path with
  | some p => some (p, s, fs)
  | none =>
    match s._name with
    | some n =>
      let r := get_preset_path n fs
      some (r.1, ⟨s._name, some r.1⟩, r.2)
    | none => none

/-- Translation of SvPreset.set_path: store the new path and recompute the
name as its stem. -/
def SvPreset.set_path (s : SvPreset) (new_path : String) : SvPreset :=
  ⟨some (pyStem new_path), some new_path⟩

/-- Translation of get_presets(): one SvPreset per listed preset path. -/
def get_presets (fs : FS) : List SvPreset × FS :=
  let r := get_preset_paths fs
  (r.1.map (fun p => SvPreset.ofPath p), r.2)

/-- Names observed by reading get_name on each element of get_presets(),
in listing order (the getD default is unreachable: every listed preset
carries a path). -/
def presetNames (fs : FS) : List String :=
  (get_presets fs).1.map (fun s => ((SvPreset.get_name s).map Prod.fst).getD "")

/-! ### Operator messages

Message strings from ui/presets.py; the quoting punctuation that the
source puts around interpolated values is elided. -/

/-- Error message of SvSaveSelected when id_tree is empty. -/
def msgNoTree : String := "Node tree is not specified"

/-- Error message used when preset_name is empty. -/
def msgNoName : String := "Preset name is not specified"

/-- Error message of SvSaveSelected when no node is selected. -/
def msgNoSel : String := "There are no selected nodes to export"

/-- Error message of SvRenamePreset when old_name is empty. -/
def msgNoOld : String := "Old preset name is not specified"

/-- Error message of SvRenamePreset when new_name is empty. -/
def msgNoNew : String := "New preset name is not specified"

/-- Error message of SvPresetFromGist when gist_id is empty. -/
def msgNoGist : String := "Gist ID is not specified"

/-- Conflict message of SvRenamePreset and SvPresetFromGist. -/
def msgConflict (n : String) : String :=
  "Preset named " ++ n ++ " already exists. Refusing to rewrite existing preset."

/-- Success message of SvSaveSelected. -/
def msgExported (p : String) : String := "exported to: " ++ p

/-- Success message of SvRenamePreset. -/
def msgRenamed (a b : String) : String := "Renamed " ++ a ++ " to " ++ b

/-- Success message of SvPresetFromGist. -/
def msgImported (g n : String) : String := "Imported " ++ g ++ " as " ++ n

/-- Warning message of SvPresetToGist on success (typo as in the source). -/
def msgCopied : String := "Copied gist URL to clipboad"

/-- Error message of SvPresetToGist on an upload exception. -/
def msgGistErr : String := "Error uploading the gist, check your internet connection!"

/-! ### Operators -/

/-- Node of a node group: only the selection flag matters to this module. -/
structure SvNode where
  select : Bool
deriving DecidableEq

/-- Lookup in a keyed collection, model of a Python dict subscript that
may miss. -/
def assocLookup {α : Type} : List (String × α) → String → Option α
  | [], _ => none
  | e :: rest, k => if e.1 = k then some e.2 else assocLookup rest k

/-- Translation of SvSaveSelected.execute (ui/presets.py lines 109-138).
node_groups models bpy.data.node_groups; serialize models the composition
of the external create_dict_of_tree(ng, selected=True) and write_json,
producing the text written for the graph.  An id_tree absent from
node_groups makes the subscript raise KeyError. -/
def svSaveSelected_execute (id_tree preset_name : String)
    (node_groups : List (String × List SvNode))
    (serialize : List SvNode → String) (fs : FS) : PyResult :=
  if id_tree = "" then
    .ok .CANCELLED fs [.logError msgNoTree, .report "ERROR" msgNoTree]
  else if preset_name = "" then
    .ok .CANCELLED fs [.logError msgNoName, .report "ERROR" msgNoName]
  else
    match assocLookup node_groups id_tree with
    | none => .raised (.keyError id_tree) fs []
    | some ng =>
      let nodes := ng.filter (fun n => n.select)
      if nodes.length = 0 then
        .ok .CANCELLED fs [.logError msgNoSel, .report "ERROR" msgNoSel]
      else
        let r := get_preset_path preset_name fs
        .ok .FINISHED (r.2.writeFile r.1 (serialize ng))
          [.report "INFO" (msgExported r.1), .logInfo (msgExported r.1)]

/-- Translation of SvRenamePreset.execute (ui/presets.py lines 167-193).
os.rename is modelled as remove-then-write of the old content; when the
old path is missing it raises FileNotFoundError. -/
def svRenamePreset_execute (old_name new_name : String) (fs : FS) : PyResult :=
  if old_name = "" then
    .ok .CANCELLED fs [.logError msgNoOld, .report "ERROR" msgNoOld]
  else if new_name = "" then
    .ok .CANCELLED fs [.logError msgNoNew, .report "ERROR" msgNoNew]
  else
    let r1 := get_preset_path old_name fs
    let r2 := get_preset_path new_name r1.2
    if r2.2.pathExists r2.1 then
      .ok .CANCELLED r2.2
        [.logError (msgConflict new_name), .report "ERROR" (msgConflict new_name)]
    else
      match r2.2.readFile r1.1 with
      | none => .raised (.fileNotFoundError r1.1) r2.2 []
      | some c =>
        .ok .FINISHED ((r2.2.removeFile r1.1).writeFile r2.1 c)
          [.logInfo (msgRenamed r1.1 r2.1), .report "INFO" (msgRenamed old_name new_name)]

/-- Translation of SvPresetToGist.execute (ui/presets.py lines 243-268).
The upload parameter stands for sv_gist_tools.main_upload_function
together with everything else inside the try block that can raise; a
missing preset file makes the open() call raise before the try block.

The try statement ends with finally: return FINISHED; in Python a return
inside finally overrides both the return CANCELLED of the except clause
and any fall-through of the try body, so both branches below return
FINISHED. -/
def svPresetToGist_execute (preset_name : String)
    (upload : Except Unit String) (fs : FS) : PyResult :=
  if preset_name = "" then
    .ok .CANCELLED fs [.logError msgNoName, .report "ERROR" msgNoName]
  else
    let r := get_preset_path preset_name fs
    match r.2.readFile r.1 with
    | none => .raised (.fileNotFoundError r.1) r.2 []
    | some body =>
      let gist_filename := preset_name ++ ".json"
      match upload with
      | .ok url =>
        .ok .FINISHED r.2
          [.uploadGist gist_filename preset_name body, .clipboardSet url,
           .logInfo url, .report "WARNING" msgCopied,
           .appendDatafiles url gist_filename]
      | .error _ =>
        .ok .FINISHED r.2
          [.uploadGist gist_filename preset_name body, .logException,
           .report "ERROR" msgGistErr]

/-- Translation of SvPresetFromGist.execute (ui/presets.py lines 379-408).
load_json_from_gist models the external fetch (its call is recorded as a
fetchGist event); json_dumps_sorted models json.dumps(gist_data,
sort_keys=True, indent=2).  The name json, however, is not bound by the
module imports (moduleGlobals), so evaluating json.dumps raises NameError
after open(target_path, 'wb') has already created the empty file. -/
def svPresetFromGist_execute (preset_name gist_id : String)
    (load_json_from_gist : String → String)
    (json_dumps_sorted : String → String) (fs : FS) : PyResult :=
  if preset_name = "" then
    .ok .CANCELLED fs [.logError msgNoName, .report "ERROR" msgNoName]
  else if gist_id = "" then
    .ok .CANCELLED fs [.logError msgNoGist, .report "ERROR" msgNoGist]
  else
    let gist_data := load_json_from_gist gist_id
    let r := get_preset_path preset_name fs
    if r.2.pathExists r.1 then
      .ok .CANCELLED r.2
        [.fetchGist gist_id, .logError (msgConflict preset_name),
         .report "ERROR" (msgConflict preset_name)]
    else
      let fs2 := r.2.writeFile r.1 ""
      if moduleGlobals.contains "json" then
        .ok .FINISHED (fs2.writeFile r.1 (json_dumps_sorted gist_data))
          [.fetchGist gist_id, .logInfo (msgImported gist_id preset_name),
           .report "INFO" (msgImported gist_id preset_name)]
      else
        .raised (.nameError "json") fs2 [.fetchGist gist_id]

/-! ### Resolver lemmas -/

theorem get_presets_directory_fst (fs : FS) :
    (get_presets_directory fs).1 = presets_directory_location := by
  unfold get_presets_directory
  split <;> rfl

theorem get_presets_directory_files (fs : FS) :
    (get_presets_directory fs).2.files = fs.files := by
  unfold get_presets_directory
  split <;> rfl

theorem get_presets_directory_dirs (fs : FS) :
    (get_presets_directory fs).2.dirs =
      (if fs.pathExists presets_directory_location = true then fs.dirs
       else presets_directory_location :: fs.dirs) := by
  unfold get_presets_directory
  split <;> simp_all [FS.makeDir]

theorem get_preset_path_fst (n : String) (fs : FS) :
    (get_preset_path n fs).1 = posixJoin presets_directory_location (n ++ ".json") := by
  show posixJoin (get_presets_directory fs).1 (n ++ ".json") = _
  rw [get_presets_directory_fst]

theorem get_preset_path_fst_const (n : String) (fs fs' : FS) :
    (get_preset_path n fs).1 = (get_preset_path n fs').1 := by
  rw [get_preset_path_fst, get_preset_path_fst]

theorem get_preset_path_files (n : String) (fs : FS) :
    (get_preset_path n fs).2.files = fs.files := by
  show (get_presets_directory fs).2.files = fs.files
  exact get_presets_directory_files fs

theorem FS.readFile_congr (fs fs' : FS) (p : String) (h : fs.files = fs'.files) :
    fs.readFile p = fs'.readFile p := by
  unfold FS.readFile
  rw [h]

theorem FS.fileExists_congr (fs fs' : FS) (p : String) (h : fs.files = fs'.files) :
    fs.fileExists p = fs'.fileExists p := by
  unfold FS.fileExists
  rw [h]

/-! ### Concrete states used to instantiate the theorems -/

/-- Presets directory created, no presets yet. -/
def fsP : FS := ⟨[], [presets_directory_location]⟩

/-- Resolved path of the preset named a. -/
def pathAjson : String := "/datafiles/sverchok/presets/a.json"

/-- Resolved path of the preset named b. -/
def pathBjson : String := "/datafiles/sverchok/presets/b.json"

/-- Presets directory holding a single preset a with content body. -/
def fsA : FS := ⟨[(pathAjson, "body")], [presets_directory_location]⟩

/-! ### Claims -/

/-- C9: a preset entity constructed from a path p reads its name as the
stem of p (basename without extension), and after setting the name of any
preset entity to n, in any filesystem state, reading the path yields
exactly the value get_preset_path(n) returns; name and path therefore stay
mutually consistent through any sequence of assignments (set_name ignores
every prior field value). -/
theorem preset_name_path_consistency :
    (∀ p : String,
      ((SvPreset.ofPath p).get_name).map Prod.fst = some (pyStem p)) ∧
    (∀ (s : SvPreset) (n : String) (fs : FS),
      (((s.set_name n fs).1).get_path ((s.set_name n fs).2)).map
          (fun t => t.1) = some ((get_preset_path n fs).1)) := by
  constructor
  · intro p
    rfl
  · intro s n fs
    rfl

/-- C3 (code bug): with a non-empty preset name and gist id and no file at
the resolved preset path, SvPresetFromGist.execute does not write the
re-serialized snippet and does not return FINISHED: because the module
never imports json, evaluating json.dumps raises NameError, after
open(target, 'wb') has already created an empty file at the target path. -/
theorem fromGist_missing_json_import_raises :
    svPresetFromGist_execute "a" "g" (fun _ => "data") (fun s => s) fsP =
      PyResult.raised (PyErr.nameError "json")
        (fsP.writeFile pathAjson "") [Event.fetchGist "g"] := by
  decide

/-- C1: for a non-empty preset name whose preset file exists, the export
to gist operation returns FINISHED whether the upload succeeded or raised;
on the exception path the error is logged and reported, yet the finally
clause still makes the returned status FINISHED, never CANCELLED. -/
theorem toGist_always_finished (n : String) (upload : Except Unit String)
    (fs : FS) (body : String) (h1 : n ≠ "")
    (h2 : (get_preset_path n fs).2.readFile ((get_preset_path n fs).1) = some body) :
    (svPresetToGist_execute n upload fs).statusOf = some Outcome.FINISHED ∧
    (∀ e : Unit, upload = .error e →
      Event.logException ∈ (svPresetToGist_execute n upload fs).eventsOf ∧
      Event.report "ERROR" msgGistErr ∈ (svPresetToGist_execute n upload fs).eventsOf) := by
  cases upload with
  | ok url =>
    refine ⟨?_, ?_⟩
    · simp [svPresetToGist_execute, h1, h2, PyResult.statusOf]
    · intro e he
      exact Except.noConfusion he
  | error e0 =>
    refine ⟨?_, ?_⟩
    · simp [svPresetToGist_execute, h1, h2, PyResult.statusOf]
    · intro e he
      constructor
      · simp [svPresetToGist_execute, h1, h2, PyResult.eventsOf]
      · simp [svPresetToGist_execute, h1, h2, PyResult.eventsOf]

/-- Witness for C1: exporting preset a while the upload raises still
finishes, with the exception logged. -/
theorem toGist_always_finished_witness :
    (svPresetToGist_execute "a" (Except.error ()) fsA).statusOf = some Outcome.FINISHED ∧
    Event.logException ∈ (svPresetToGist_execute "a" (Except.error ()) fsA).eventsOf := by
  have h := toGist_always_finished "a" (Except.error ()) fsA "body" (by decide) (by decide)
  exact ⟨h.1, (h.2 () rfl).1⟩

/-- C2: importing from gist with non-empty name and gist id, when a file
already exists at the resolved preset path, returns CANCELLED, writes
nothing, and leaves every file byte-for-byte unchanged. -/
theorem fromGist_existing_preset_cancelled (n g : String)
    (loadf dumpf : String → String) (fs : FS) (h1 : n ≠ "") (h2 : g ≠ "")
    (h3 : fs.fileExists ((get_preset_path n fs).1) = true) :
    (svPresetFromGist_execute n g loadf dumpf fs).statusOf = some Outcome.CANCELLED ∧
    (svPresetFromGist_execute n g loadf dumpf fs).fsOf.files = fs.files ∧
    (svPresetFromGist_execute n g loadf dumpf fs).fsOf.readFile ((get_preset_path n fs).1)
      = fs.readFile ((get_preset_path n fs).1) := by
  have hfe : (get_preset_path n fs).2.fileExists ((get_preset_path n fs).1) = true := by
    rw [FS.fileExists_congr _ fs _ (get_preset_path_files n fs)]
    exact h3
  have hpe : (get_preset_path n fs).2.pathExists ((get_preset_path n fs).1) = true :=
    FS.pathExists_of_fileExists _ _ hfe
  refine ⟨?_, ?_, ?_⟩
  · simp [svPresetFromGist_execute, h1, h2, hpe, PyResult.statusOf]
  · simp [svPresetFromGist_execute, h1, h2, hpe, PyResult.fsOf]
    exact get_preset_path_files n fs
  · simp [svPresetFromGist_execute, h1, h2, hpe, PyResult.fsOf]
    exact FS.readFile_congr _ fs _ (get_preset_path_files n fs)

/-- Witness for C2: importing gist g as the already existing preset a is
refused and changes no file. -/
theorem fromGist_existing_preset_cancelled_witness :
    (svPresetFromGist_execute "a" "g" (fun _ => "data") (fun s => s) fsA).statusOf
      = some Outcome.CANCELLED ∧
    (svPresetFromGist_execute "a" "g" (fun _ => "data") (fun s => s) fsA).fsOf.files
      = fsA.files := by
  have h := fromGist_existing_preset_cancelled "a" "g" (fun _ => "data") (fun s => s) fsA
    (by decide) (by decide) (by decide)
  exact ⟨h.1, h.2.1⟩

/-- C10: importing from gist with non-empty name and gist id performs the
remote fetch first: even when the invocation is then refused because the
preset already exists (CANCELLED), the fetch event is the first observable
action of the trace. -/
theorem fromGist_fetches_before_conflict_check (n g : String)
    (loadf dumpf : String → String) (fs : FS) (h1 : n ≠ "") (h2 : g ≠ "")
    (h3 : fs.fileExists ((get_preset_path n fs).1) = true) :
    (svPresetFromGist_execute n g loadf dumpf fs).statusOf = some Outcome.CANCELLED ∧
    ((svPresetFromGist_execute n g loadf dumpf fs).eventsOf).head?
      = some (Event.fetchGist g) := by
  have hfe : (get_preset_path n fs).2.fileExists ((get_preset_path n fs).1) = true := by
    rw [FS.fileExists_congr _ fs _ (get_preset_path_files n fs)]
    exact h3
  have hpe : (get_preset_path n fs).2.pathExists ((get_preset_path n fs).1) = true :=
    FS.pathExists_of_fileExists _ _ hfe
  refine ⟨?_, ?_⟩
  · simp [svPresetFromGist_execute, h1, h2, hpe, PyResult.statusOf]
  · simp [svPresetFromGist_execute, h1, h2, hpe, PyResult.eventsOf]

/-- Witness for C10: the refused import of gist g over the existing preset
a still fetched the gist, as the first action. -/
theorem fromGist_fetches_before_conflict_check_witness :
    (svPresetFromGist_execute "a" "g" (fun _ => "data") (fun s => s) fsA).statusOf
      = some Outcome.CANCELLED ∧
    ((svPresetFromGist_execute "a" "g" (fun _ => "data") (fun s => s) fsA).eventsOf).head?
      = some (Event.fetchGist "g") := by
  exact fromGist_fetches_before_conflict_check "a" "g" (fun _ => "data") (fun s => s) fsA
    (by decide) (by decide) (by decide)

/-- C4: renaming with non-empty old and new names never overwrites: when
the code finds the new resolved path occupied it cancels and every file is
unchanged; otherwise, with the old preset present with content c, the
rename finishes, the old path no longer exists and the new path holds c. -/
theorem rename_no_overwrite_and_moves (old_name new_name : String) (fs : FS)
    (h1 : old_name ≠ "") (h2 : new_name ≠ "") :
    ((get_preset_path new_name (get_preset_path old_name fs).2).2.pathExists
        (get_preset_path new_name (get_preset_path old_name fs).2).1 = true →
      (svRenamePreset_execute old_name new_name fs).statusOf = some Outcome.CANCELLED ∧
      (svRenamePreset_execute old_name new_name fs).fsOf.files = fs.files) ∧
    (∀ c : String,
      (get_preset_path new_name (get_preset_path old_name fs).2).2.pathExists
        (get_preset_path new_name (get_preset_path old_name fs).2).1 = false →
      (get_preset_path new_name (get_preset_path old_name fs).2).2.readFile
        ((get_preset_path old_name fs).1) = some c →
      (svRenamePreset_execute old_name new_name fs).statusOf = some Outcome.FINISHED ∧
      (svRenamePreset_execute old_name new_name fs).fsOf.readFile
        ((get_preset_path old_name fs).1) = none ∧
      (svRenamePreset_execute old_name new_name fs).fsOf.readFile
        ((get_preset_path new_name (get_preset_path old_name fs).2).1) = some c) := by
  constructor
  · intro h3
    constructor
    · simp [svRenamePreset_execute, h1, h2, h3, PyResult.statusOf]
    · simp [svRenamePreset_execute, h1, h2, h3, PyResult.fsOf]
      rw [get_preset_path_files, get_preset_path_files]
  · intro c h3 h4
    have hne : (get_preset_path old_name fs).1
        ≠ (get_preset_path new_name (get_preset_path old_name fs).2).1 := by
      intro he
      have hfe : (get_preset_path new_name (get_preset_path old_name fs).2).2.fileExists
          ((get_preset_path new_name (get_preset_path old_name fs).2).1) = true := by
        unfold FS.fileExists
        unfold FS.readFile at h4
        rw [← he, h4]
        rfl
      have hpe := FS.pathExists_of_fileExists _ _ hfe
      rw [h3] at hpe
      exact Bool.noConfusion hpe
    refine ⟨?_, ?_, ?_⟩
    · simp [svRenamePreset_execute, h1, h2, h3, h4, PyResult.statusOf]
    · simp [svRenamePreset_execute, h1, h2, h3, h4, PyResult.fsOf]
      rw [FS.readFile_writeFile_ne _ _ _ _ hne, FS.readFile_removeFile_self]
    · simp [svRenamePreset_execute, h1, h2, h3, h4, PyResult.fsOf]
      rw [FS.readFile_writeFile_self]

/-- Witness for C4: renaming the existing preset a to the fresh name b
finishes, a.json is gone and b.json holds the old content. -/
theorem rename_no_overwrite_and_moves_witness :
    (svRenamePreset_execute "a" "b" fsA).statusOf = some Outcome.FINISHED ∧
    (svRenamePreset_execute "a" "b" fsA).fsOf.readFile pathAjson = none ∧
    (svRenamePreset_execute "a" "b" fsA).fsOf.readFile pathBjson = some "body" := by
  have h := rename_no_overwrite_and_moves "a" "b" fsA (by decide) (by decide)
  exact h.2 "body" (by decide) (by decide)

/-- C7: once validation passes (non-empty identifiers, resolvable graph, a
non-empty selection), SvSaveSelected.execute writes the serialized
selection to the resolved preset path with no existence check, so whatever
file was there before is silently replaced, and it returns FINISHED
reporting the destination path. -/
theorem saveSelected_overwrites_silently (id_tree preset_name : String)
    (node_groups : List (String × List SvNode)) (serialize : List SvNode → String)
    (fs : FS) (ng : List SvNode)
    (h1 : id_tree ≠ "") (h2 : preset_name ≠ "")
    (h3 : assocLookup node_groups id_tree = some ng)
    (h4 : (ng.filter (fun n => n.select)).length ≠ 0) :
    (svSaveSelected_execute id_tree preset_name node_groups serialize fs).statusOf
      = some Outcome.FINISHED ∧
    (svSaveSelected_execute id_tree preset_name node_groups serialize fs).fsOf.readFile
      ((get_preset_path preset_name fs).1) = some (serialize ng) ∧
    Event.report "INFO" (msgExported ((get_preset_path preset_name fs).1))
      ∈ (svSaveSelected_execute id_tree preset_name node_groups serialize fs).eventsOf := by
  refine ⟨?_, ?_, ?_⟩
  · simp [svSaveSelected_execute, h1, h2, h3, h4, PyResult.statusOf]
  · simp [svSaveSelected_execute, h1, h2, h3, h4, PyResult.fsOf]
    exact FS.readFile_writeFile_self _ _ _
  · simp [svSaveSelected_execute, h1, h2, h3, h4, PyResult.eventsOf]

/-- Resolved path of the preset named p. -/
def pathPjson : String := "/datafiles/sverchok/presets/p.json"

/-- Presets directory already holding a preset p with content old. -/
def fsB : FS := ⟨[(pathPjson, "old")], [presets_directory_location]⟩

/-- One node group t with one selected node. -/
def ngSel : List (String × List SvNode) := [("t", [⟨true⟩])]

/-- Witness for C7: saving over the existing preset p replaces its content
without any complaint. -/
theorem saveSelected_overwrites_silently_witness :
    (svSaveSelected_execute "t" "p" ngSel (fun _ => "newdata") fsB).statusOf
      = some Outcome.FINISHED ∧
    (svSaveSelected_execute "t" "p" ngSel (fun _ => "newdata") fsB).fsOf.readFile
      ((get_preset_path "p" fsB).1) = some "newdata" := by
  have h := saveSelected_overwrites_silently "t" "p" ngSel (fun _ => "newdata") fsB
    [⟨true⟩] (by decide) (by decide) (by rfl) (by decide)
  exact ⟨h.1, h.2.1⟩

/-! ### C5 and C6 support -/

/-- Completely empty filesystem: no files, presets directory not created. -/
def fsEmpty : FS := ⟨[], []⟩

theorem strHead_append_of_ne_slash (n : String) (h : strHead n ≠ some '/') :
    strHead (n ++ ".json") ≠ some '/' := by
  unfold strHead at *
  rw [String.data_append]
  cases hd : n.data with
  | nil => decide
  | cons c cs =>
    rw [hd] at h
    simp only [List.cons_append, List.head?_cons] at *
    exact h

theorem posixJoin_dir (b : String) (hb : strHead b ≠ some '/') :
    posixJoin presets_directory_location b = presets_directory_location ++ "/" ++ b := by
  have h2 : ¬ (presets_directory_location = ""
      ∨ strLast presets_directory_location = some '/') := by decide
  unfold posixJoin
  rw [if_neg hb, if_neg h2]

/-- Counterexample to C5 as stated: at name n = "/a" in the state with no
presets directory yet, get_preset_path returns "/a.json", which does not
lie under the presets directory, and the call modifies the filesystem (it
creates the presets directory), contradicting both the claimed location of
the result and the claim that no filesystem access or modification is
performed. -/
theorem get_preset_path_claim_cex :
    (get_preset_path "/a" fsEmpty).1 = "/a.json" ∧
    strStarts presets_directory_location ((get_preset_path "/a" fsEmpty).1) = false ∧
    (get_preset_path "/a" fsEmpty).2 ≠ fsEmpty := by
  decide

/-- C5 amended: for a name n that is not an absolute path,
get_preset_path(n) returns exactly the presets directory joined with
n + ".json" (hence the result ends with n + ".json" and lies under the
presets directory); the call reads and writes no files, but it does touch
the filesystem: it ensures the presets directory exists, creating it when
absent. -/
theorem get_preset_path_amended (n : String) (fs : FS)
    (h : strHead n ≠ some '/') :
    (get_preset_path n fs).1 = presets_directory_location ++ "/" ++ (n ++ ".json") ∧
    (∃ pre : String, (get_preset_path n fs).1 = pre ++ (n ++ ".json")) ∧
    strStarts presets_directory_location ((get_preset_path n fs).1) = true ∧
    (get_preset_path n fs).2.files = fs.files ∧
    (get_preset_path n fs).2.dirs =
      (if fs.pathExists presets_directory_location = true then fs.dirs
       else presets_directory_location :: fs.dirs) := by
  have hp : (get_preset_path n fs).1
      = presets_directory_location ++ "/" ++ (n ++ ".json") := by
    rw [get_preset_path_fst]
    exact posixJoin_dir _ (strHead_append_of_ne_slash n h)
  refine ⟨hp, ⟨presets_directory_location ++ "/", hp⟩, ?_, get_preset_path_files n fs, ?_⟩
  · rw [hp, String.append_assoc]
    exact strStarts_append _ _
  · show (get_presets_directory fs).2.dirs = _
    exact get_presets_directory_dirs fs

/-- Witness for the amended C5 at name a in the empty state. -/
theorem get_preset_path_amended_witness :
    (get_preset_path "a" fsEmpty).1
      = presets_directory_location ++ "/" ++ ("a" ++ ".json") ∧
    (get_preset_path "a" fsEmpty).2.files = fsEmpty.files := by
  have h := get_preset_path_amended "a" fsEmpty (by decide)
  exact ⟨h.1, h.2.2.2.1⟩

/-- Counterexample to C6 as stated: invoking save-selected with the
non-empty graph identifier X that resolves to no existing graph raises an
uncaught KeyError instead of reporting a validation error with a CANCELLED
status. -/
theorem saveSelected_unresolved_tree_cex :
    svSaveSelected_execute "X" "a" [] (fun _ => "s") fsEmpty
      = PyResult.raised (PyErr.keyError "X") fsEmpty [] ∧
    (svSaveSelected_execute "X" "a" [] (fun _ => "s") fsEmpty).statusOf
      ≠ some Outcome.CANCELLED := by
  constructor
  · rfl
  · intro h
    exact Option.noConfusion h

/-- C6 amended: save-selected checks, in order, that the graph identifier
is given and that the preset name is given, each failure reported as its
own validation error with CANCELLED; a given identifier that does not
resolve raises an uncaught key lookup error rather than a reported
validation error; with a resolved graph, an empty selection is again
reported as its own validation error with CANCELLED.  In every one of
these failure cases the filesystem is returned untouched, so no file is
written. -/
theorem saveSelected_validation_amended (id_tree preset_name : String)
    (node_groups : List (String × List SvNode))
    (serialize : List SvNode → String) (fs : FS) :
    (id_tree = "" →
      svSaveSelected_execute id_tree preset_name node_groups serialize fs
        = PyResult.ok Outcome.CANCELLED fs
            [Event.logError msgNoTree, Event.report "ERROR" msgNoTree]) ∧
    (id_tree ≠ "" → preset_name = "" →
      svSaveSelected_execute id_tree preset_name node_groups serialize fs
        = PyResult.ok Outcome.CANCELLED fs
            [Event.logError msgNoName, Event.report "ERROR" msgNoName]) ∧
    (id_tree ≠ "" → preset_name ≠ "" → assocLookup node_groups id_tree = none →
      svSaveSelected_execute id_tree preset_name node_groups serialize fs
        = PyResult.raised (PyErr.keyError id_tree) fs []) ∧
    (∀ ng : List SvNode, id_tree ≠ "" → preset_name ≠ "" →
      assocLookup node_groups id_tree = some ng →
      (ng.filter (fun n => n.select)).length = 0 →
      svSaveSelected_execute id_tree preset_name node_groups serialize fs
        = PyResult.ok Outcome.CANCELLED fs
            [Event.logError msgNoSel, Event.report "ERROR" msgNoSel]) := by
  refine ⟨?_, ?_, ?_, ?_⟩
  · intro h1
    simp [svSaveSelected_execute, h1]
  · intro h1 h2
    simp [svSaveSelected_execute, h1, h2]
  · intro h1 h2 h3
    simp [svSaveSelected_execute, h1, h2, h3]
  · intro ng h1 h2 h3 h4
    simp [svSaveSelected_execute, h1, h2, h3, h4]

/-- Witness for the amended C6: a graph with one unselected node makes
save-selected cancel with the empty-selection error and leaves the
filesystem untouched. -/
theorem saveSelected_validation_amended_witness :
    svSaveSelected_execute "t" "p" [("t", [⟨false⟩])] (fun _ => "s") fsEmpty
      = PyResult.ok Outcome.CANCELLED fsEmpty
          [Event.logError msgNoSel, Event.report "ERROR" msgNoSel] := by
  have h := saveSelected_validation_amended "t" "p" [("t", [⟨false⟩])] (fun _ => "s") fsEmpty
  exact h.2.2.2 [⟨false⟩] (by decide) (by decide) (by rfl) (by rfl)

/-! ### C8 support -/

theorem mem_map_fst_iff (l : List (String × String)) (p : String) :
    p ∈ l.map Prod.fst ↔ (filesLookup l p).isSome = true := by
  induction l with
  | nil => simp [filesLookup]
  | cons e rest ih =>
    by_cases h : e.1 = p
    · simp [filesLookup, h]
    · simp only [List.map_cons, List.mem_cons, filesLookup, if_neg h, ih]
      constructor
      · rintro (h1 | h1)
        · exact absurd h1.symm h
        · exact h1
      · intro h1
        exact Or.inr h1

theorem get_preset_paths_fst (fs : FS) :
    (get_preset_paths fs).1 = sortStrings ((fs.files.map Prod.fst).filter
      (fun p => matchGlob presets_directory_location p)) := by
  show sortStrings (((get_presets_directory fs).2.files.map Prod.fst).filter
      (fun p => matchGlob (get_presets_directory fs).1 p)) = _
  rw [get_presets_directory_fst, get_presets_directory_files]

/-- C8 amended: in every filesystem state with no duplicated file paths,
get_preset_paths() is lexicographically sorted and contains exactly the
paths of the files present in the presets directory that match the
*.json glob, each once; get_presets() builds one preset per such path in
that same path order.  That order is by full file name including the
extension, which is not always the order of the preset name stems (see the
counterexample). -/
theorem preset_paths_sorted_exact (fs : FS)
    (h : (fs.files.map Prod.fst).Nodup) :
    List.Sorted (· ≤ ·) (get_preset_paths fs).1 ∧
    (∀ p : String, p ∈ (get_preset_paths fs).1 ↔
      (fs.fileExists p = true ∧ matchGlob presets_directory_location p = true)) ∧
    (get_preset_paths fs).1.Nodup ∧
    (get_presets fs).1 = ((get_preset_paths fs).1).map SvPreset.ofPath := by
  refine ⟨?_, ?_, ?_, ?_⟩
  · rw [get_preset_paths_fst]
    exact sortStrings_sorted _
  · intro p
    rw [get_preset_paths_fst, mem_sortStrings, List.mem_filter, mem_map_fst_iff]
    exact Iff.rfl
  · rw [get_preset_paths_fst]
    exact ((sortStrings_perm _).nodup_iff).mpr (h.filter _)
  · rfl

/-- Witness for the amended C8 on a one-preset directory. -/
theorem preset_paths_sorted_exact_witness :
    List.Sorted (· ≤ ·) (get_preset_paths fsA).1 ∧
    (get_preset_paths fsA).1.Nodup := by
  have h := preset_paths_sorted_exact fsA (by decide)
  exact ⟨h.1, h.2.2.1⟩

/-- Directory holding presets named a.b and a: path order puts a.b.json
before a.json, so the stems come out unsorted. -/
def fsC : FS :=
  ⟨[("/datafiles/sverchok/presets/a.b.json", "x"),
    ("/datafiles/sverchok/presets/a.json", "y")], [presets_directory_location]⟩

/-- Counterexample to C8 as stated: with presets a.b and a on disk,
get_presets() enumerates the names as [a.b, a], which is not sorted by
preset name (a < a.b), because the listing is sorted by file path, where
the appended .json extension changes the relative order. -/
theorem presets_name_order_cex :
    presetNames fsC = ["a.b", "a"] ∧
    ¬ List.Sorted (· ≤ ·) (presetNames fsC) := by
  refine ⟨by decide, ?_⟩
  intro hs
  rw [show presetNames fsC = ["a.b", "a"] by decide] at hs
  have h1 : ("a.b" : String) ≤ "a" := (List.sorted_cons.mp hs).1 "a" (by simp)
  have h2 : strLeb "a.b" "a" = true := (strLeb_iff _ _).mpr h1
  exact absurd h2 (by decide)
